import Mathlib

/-!
Verification of the receipt-processor core (backend/config.py and
backend/receipt_parser.py) against its natural-language specification.

The Python code is shallowly embedded:
* JSON / Python leaf values that flow through the validator are modelled by
  `PyVal` (null, booleans, numbers, strings).  Python numbers (int and float)
  are modelled as exact rationals `Rat`; the claims checked here never depend
  on binary floating-point artefacts, and the spec itself leaves the halfway
  rounding policy open.
* a parsed JSON object (a Python `dict`) is modelled as an association list
  `RawDict`; `pyGet` is `dict.get`.
* fallible Python code (an uncaught exception) is modelled with `Except`.
-/

namespace ReceiptProc

/-- A Python/JSON leaf value as it flows through `_validate_receipt_data`. -/
inductive PyVal where
  | null : PyVal
  | bool (b : Bool) : PyVal
  | num (q : Rat) : PyVal
  | str (s : String) : PyVal
deriving DecidableEq, Repr

/-- A parsed JSON object (Python dict with string keys). -/
def RawDict := List (String × PyVal)

/-- `d.get(k)` without default: `none` when the key is absent. -/
def pyGet (d : RawDict) (k : String) : Option PyVal :=
  match d with
  | [] => none
  | (k2, v) :: rest => if k2 = k then some v else pyGet rest k

/-- Python truthiness of a `PyVal` (`if payment:` etc.). -/
def truthy : PyVal → Bool
  | .null => false
  | .bool b => b
  | .num q => q != 0
  | .str s => s != ""

/-- Python membership test `v in l` for a list of strings: only an equal
string is a member, any non-string value compares unequal to every element. -/
def pvMem (v : PyVal) (l : List String) : Bool :=
  match v with
  | .str s => l.contains s
  | _ => false

/-- Value of a decimal digit list (most significant first). -/
def natOfDigits (l : List Char) : Nat :=
  l.foldl (fun a c => a * 10 + (c.toNat - 48)) 0

/-- Python whitespace accepted by `float(str)` and matched by `\s`
(ASCII subset). -/
def pySpace (c : Char) : Bool :=
  c = ' ' || c = '\t' || c = '\n' || c = '\r' || c = '\x0b' || c = '\x0c'

/-- Parse an unsigned decimal literal (`123`, `12.5`, `.5`, `5.`), the body
of Python `float(str)`.  Exponents and `inf`/`nan` are not modelled; no
claim exercises them. -/
def parseFloatCore (l : List Char) : Option Rat :=
  let intPart := l.takeWhile Char.isDigit
  let rest := l.dropWhile Char.isDigit
  match rest with
  | [] => if intPart = [] then none else some (natOfDigits intPart)
  | c :: frac =>
    if c = '.' && frac.all Char.isDigit && (intPart ≠ [] || frac ≠ []) then
      some ((natOfDigits intPart : Rat) +
        (natOfDigits frac : Rat) / ((10 : Rat) ^ frac.length))
    else none

/-- Python `float(str)`: strip surrounding whitespace, optional sign, then a
decimal literal; `none` models the `ValueError` raised on anything else. -/
def parseFloat (s : String) : Option Rat :=
  let l := ((s.data.dropWhile pySpace).reverse.dropWhile pySpace).reverse
  match l with
  | '+' :: t => parseFloatCore t
  | '-' :: t => (parseFloatCore t).map Neg.neg
  | t => parseFloatCore t

/-- Python `float(v)` on a leaf value: numbers pass through, booleans become
0/1, strings are parsed, `None` raises (`none`). -/
def pyFloat : PyVal → Option Rat
  | .num q => some q
  | .bool b => some (if b then 1 else 0)
  | .null => none
  | .str s => parseFloat s

/-- Python `str(v)`, used only under `re.sub(r"\D", "", str(bulstat))`.
The repr of a non-integral number is simplified (only its digits matter
downstream and no claim exercises it). -/
def pyStr : PyVal → String
  | .str s => s
  | .null => "None"
  | .bool b => if b then "True" else "False"
  | .num q => if q.den = 1 then toString q.num else toString q

/-- `re.sub(r"\D", "", s)`: keep only (ASCII) digits. -/
def digitsOnly (s : String) : String :=
  ⟨s.data.filter Char.isDigit⟩

/-- Helper for `pySplit`: `acc` holds the (reversed) characters of the
current segment. -/
def pySplitAux (sep : Char) : List Char → List Char → List String
  | [], acc => [⟨acc.reverse⟩]
  | c :: rest, acc =>
    if c = sep then ⟨acc.reverse⟩ :: pySplitAux sep rest []
    else pySplitAux sep rest (c :: acc)

/-- Python `s.split(sep)` for a one-character separator: every occurrence
splits, empty segments are kept, and the empty string yields `[""]`. -/
def pySplit (s : String) (sep : Char) : List String :=
  pySplitAux sep s.data []

/-! ## config.py -/

/-- `BGN_PER_EUR = 1.95583` (config.py line 11). -/
def BGN_PER_EUR : Rat := 195583 / 100000

/-- `CATEGORIES` (config.py lines 13-34). -/
def CATEGORIES : List String :=
  ["Храна", "Оборотни стоки", "Стоки за дома", "Забавления", "Козметика",
   "Гориво", "Дрехи и обувки", "Разходи квартира", "Балчик", "Варна",
   "Провадия", "Подаръци", "Техсол", "Абонаментни сметки",
   "Кредитни карти", "Здравни", "Лора", "Бебе", "Разни",
   "Разходи апартамент"]

/-- `PAYMENT_METHODS` (config.py lines 36-48). -/
def PAYMENT_METHODS : List String :=
  ["ВиртуаленPOS", "Cash", "Diners", "ePay", "PayPal", "RaiCard",
   "Revolut", "FIB 0889", "Ваучери за храна", "ОББ", "Bulbank 4416"]

/-- `SHEET_COLUMNS` (config.py lines 51-62). -/
def SHEET_COLUMNS : List String :=
  ["Дата", "Категория", "Цена лв", "Цена €", "GGBG лв", "Плащане",
   "Допълн. такса", "Payback", "Пояснения", "БУЛСТАТ"]

/-- The `ReceiptData` dataclass (config.py lines 65-72).  `total_eur` is
always the result of `float(...)`, hence a number; `category` is always a
string drawn from `CATEGORIES` by the validator; the remaining fields store
whatever Python value the validator (or a caller) put there, so they keep
the `PyVal` type, with `PyVal.null` standing for Python `None`. -/
structure ReceiptData where
  date : PyVal
  total_eur : Rat
  category : String
  payment_method : PyVal := .null
  notes : PyVal := .str ""
  bulstat : PyVal := .null
deriving DecidableEq, Repr

/-- Round-half-to-even to an integer, the behaviour of Python `round` /
`format` on an exactly-representable value (the spec leaves the halfway
policy open and no claim exercises a halfway point). -/
def pyRoundInt (x : Rat) : Int :=
  let n := ⌊x⌋
  let frac := x - (n : Rat)
  if frac < 1 / 2 then n
  else if (1 : Rat) / 2 < frac then n + 1
  else if n % 2 = 0 then n else n + 1

/-- `round(x, 2)` on an exactly-represented value. -/
def pyRound2 (x : Rat) : Rat := (pyRoundInt (x * 100) : Rat) / 100

/-- `ReceiptData.total_bgn` (config.py lines 74-76):
`round(self.total_eur * BGN_PER_EUR, 2)`. -/
def total_bgn (r : ReceiptData) : Rat := pyRound2 (r.total_eur * BGN_PER_EUR)

/-- `f"{x:.2f}".replace(".", ",")`: two-decimal fixed format with a comma
as the decimal separator. -/
def fmt2comma (x : Rat) : String :=
  let n := pyRoundInt (x * 100)
  let m := n.natAbs
  let fracPart := m % 100
  (if n < 0 then "-" else "") ++ toString (m / 100) ++ "," ++
    (if fracPart < 10 then "0" ++ toString fracPart else toString fracPart)

/-- `ReceiptData.to_sheet_row` (config.py lines 78-91). -/
def to_sheet_row (r : ReceiptData) : List PyVal :=
  [ r.date,
    .str r.category,
    .str (fmt2comma (total_bgn r)),
    .str (fmt2comma r.total_eur),
    .str "",
    (if truthy r.payment_method then r.payment_method else .str ""),
    .str "",
    .str "",
    r.notes,
    (if truthy r.bulstat then r.bulstat else .str "") ]

/-! ## receipt_parser.py: the field validator -/

/-- Lines 63-65: `category = data.get("category", "Разни")`; replaced by
`"Разни"` unless it is a member of `CATEGORIES` (a non-string value is
never a member of a list of strings). -/
def validate_category (data : RawDict) : String :=
  match (pyGet data "category").getD (.str "Разни") with
  | .str s => if s ∈ CATEGORIES then s else "Разни"
  | _ => "Разни"

/-- Lines 67-69: `payment = data.get("payment_method")`; reset to `None`
only when it is truthy and not a member of `PAYMENT_METHODS` (so falsy
values, the empty string included, pass through unchanged). -/
def validate_payment (data : RawDict) : PyVal :=
  let payment := (pyGet data "payment_method").getD .null
  if truthy payment && !(pvMem payment PAYMENT_METHODS) then PyVal.null
  else payment

/-- Lines 71-76: `bulstat = data.get("bulstat")`; when truthy it is
normalized to its digits, an all-stripped result becoming `None`; falsy
values pass through unchanged. -/
def validate_bulstat (data : RawDict) : PyVal :=
  let bulstat := (pyGet data "bulstat").getD .null
  if truthy bulstat then
    let d := digitsOnly (pyStr bulstat)
    if d = "" then PyVal.null else PyVal.str d
  else bulstat

/-- `_validate_receipt_data` (receipt_parser.py lines 61-85).  The only
statement in its body that can raise is the `float(...)` coercion of
`total_eur`; everything else is total.  An uncaught `ValueError`/`TypeError`
from `float` is modelled as `Except.error`. -/
def validate_receipt_data (data : RawDict) : Except String ReceiptData :=
  match pyFloat ((pyGet data "total_eur").getD (.num 0)) with
  | none => .error "could not convert string to float"
  | some t =>
    .ok { date := (pyGet data "date").getD (.str ""),
          total_eur := t,
          category := validate_category data,
          payment_method := validate_payment data,
          notes := (pyGet data "notes").getD (.str ""),
          bulstat := validate_bulstat data }

/-! ## receipt_parser.py: JSON extraction (`_parse_json_response`)

The two `re.search` calls are embedded as explicit backtracking matchers
over `List Char`, one per pattern, with exactly the Python regex semantics
(leftmost match; `(?:json)?` preferring the tagged branch; `\s*` maximal
munch, exact here because the following literal is never a whitespace
character; lazy `.*?` trying the shortest span first under `re.DOTALL`).
`json.loads` itself is not modelled: `extract_json_span` returns the exact
character span that the source hands to `json.loads`. -/

/-- `\s*` followed by the literal closing fence: does `cs`, after maximal
whitespace munch, start with three backticks? -/
def closeFence (cs : List Char) : Bool :=
  "```".data.isPrefixOf (cs.dropWhile pySpace)

/-- The lazy capture `(\{.*?\})\s*` + closing fence, entered just after the
opening brace; `acc` holds the (reversed) characters captured so far.
Returns the full captured group including both braces.  Lazy semantics:
at every position first try to end the capture (`\}` here, then the
closing fence), only then consume one more character (`.` under DOTALL). -/
def lazyScan : List Char → List Char → Option (List Char)
  | [], _ => none
  | c :: rest, acc =>
    if c = '\x7d' && closeFence rest then some (('\x7d' :: acc).reverse)
    else lazyScan rest (c :: acc)

/-- `\s*\{` then the lazy capture: the part of pattern 1 after the opening
fence and optional `json` tag.  (`\s*` maximal munch is exact because the
following literal `{` is not whitespace.) -/
def fenceBody (cs : List Char) : Option (List Char) :=
  match cs.dropWhile pySpace with
  | c :: rest => if c = '\x7b' then lazyScan rest ['\x7b'] else none
  | [] => none

/-- Pattern 1 anchored at the current position: three backticks, then
`(?:json)?` (tagged branch preferred, untagged branch on backtrack), then
`fenceBody`. -/
def fenceAt (cs : List Char) : Option (List Char) :=
  if "```".data.isPrefixOf cs then
    let cs1 := cs.drop 3
    if "json".data.isPrefixOf cs1 then
      match fenceBody (cs1.drop 4) with
      | some g => some g
      | none => fenceBody cs1
    else fenceBody cs1
  else none

/-- `re.search` for pattern 1: try `fenceAt` at each position left to
right, first success wins. -/
def searchFence : List Char → Option (List Char)
  | [] => none
  | c :: t =>
    match fenceAt (c :: t) with
    | some g => some g
    | none => searchFence t

/-- `re.search(r"\{.*\}", text, re.DOTALL)`: greedy span from the first
`{` to the last `}` at or after it (exactly the regex's leftmost-longest
match). -/
def rawSpan (cs : List Char) : Option (List Char) :=
  match cs.dropWhile (· != '\x7b') with
  | [] => none
  | l =>
    match l.reverse.dropWhile (· != '\x7d') with
    | [] => none
    | r => some r.reverse

/-- `_parse_json_response` (receipt_parser.py lines 48-58) up to the
`json.loads` call: the span of text handed to the JSON parser, or the
`ValueError` raised when neither pattern matches. -/
def extract_json_span (text : String) : Except String String :=
  match searchFence text.data with
  | some g => .ok ⟨g⟩
  | none =>
    match rawSpan text.data with
    | some m => .ok ⟨m⟩
    | none => .error ("No valid JSON found in response: " ++ ⟨text.data.take 200⟩)

/-- The fenced-block span as the spec words it (spec 4.3 step 1): the same
matcher but with the brace span taken greedily (longest first) instead of
lazily.  Declared only to compare the spec's wording against the code. -/
def greedyScan : List Char → List Char → Option (List Char)
  | [], _ => none
  | c :: rest, acc =>
    match greedyScan rest (c :: acc) with
    | some g => some g
    | none =>
      if c = '\x7d' && closeFence rest then some (('\x7d' :: acc).reverse)
      else none

/-- Modelled from the spec: `\s*\{` then the greedy capture. -/
def fenceBodyGreedy (cs : List Char) : Option (List Char) :=
  match cs.dropWhile pySpace with
  | c :: rest => if c = '\x7b' then greedyScan rest ['\x7b'] else none
  | [] => none

/-- Modelled from the spec: pattern 1 with a greedy brace span, anchored. -/
def fenceAtGreedy (cs : List Char) : Option (List Char) :=
  if "```".data.isPrefixOf cs then
    let cs1 := cs.drop 3
    if "json".data.isPrefixOf cs1 then
      match fenceBodyGreedy (cs1.drop 4) with
      | some g => some g
      | none => fenceBodyGreedy cs1
    else fenceBodyGreedy cs1
  else none

/-- Modelled from the spec: leftmost search for the greedy variant. -/
def searchFenceGreedy : List Char → Option (List Char)
  | [] => none
  | c :: t =>
    match fenceAtGreedy (c :: t) with
    | some g => some g
    | none => searchFenceGreedy t

/-! ## receipt_parser.py: QR decoding -/

/-- One barcode candidate as returned by `pyzbar`: its reported type and
the UTF-8 decoding of its byte payload (`none` models bytes on which
`.decode("utf-8")` raises; `UnicodeDecodeError` is a `ValueError`, caught
by the loop). -/
structure QrCode where
  ctype : String
  text : Option String
deriving DecidableEq, Repr

/-- The payload dict built by `decode_receipt_qr`. -/
structure QRPayload where
  fp_number : String
  receipt_number : String
  date : String
  time : Option String
  amount : Option Rat
deriving DecidableEq, Repr

/-- The body of the `for code in codes:` loop (receipt_parser.py lines
191-208) for one candidate: `none` means the loop `continue`s. -/
def qrCandidate (c : QrCode) : Option QRPayload :=
  if c.ctype ≠ "QRCODE" then none
  else
    match c.text with
    | none => none
    | some text =>
      let parts := pySplit text '*'
      if parts.length < 4 then none
      else if parts.length > 4 then
        match parseFloat (parts.getD 4 "") with
        | none => none
        | some q =>
          some { fp_number := parts.getD 0 "", receipt_number := parts.getD 1 "",
                 date := parts.getD 2 "", time := some (parts.getD 3 ""),
                 amount := some q }
      else
        some { fp_number := parts.getD 0 "", receipt_number := parts.getD 1 "",
               date := parts.getD 2 "", time := some (parts.getD 3 ""),
               amount := none }

/-- `decode_receipt_qr` (receipt_parser.py lines 171-210) from the point
where `pyzbar` has produced the candidate list: first candidate that
survives all checks wins, `none` if none does. -/
def decode_receipt_qr (codes : List QrCode) : Option QRPayload :=
  codes.findSome? qrCandidate

/-! ## receipt_parser.py: the orchestrator -/

/-- `AVAILABLE_PROVIDERS`: the keys of `_PROVIDERS` in order
(receipt_parser.py lines 213-219). -/
def AVAILABLE_PROVIDERS : List String := ["claude", "gemini", "grok"]

/-- The message of the `ValueError` raised on an unknown provider
(receipt_parser.py lines 239-241). -/
def unknownProviderMsg (p : String) : String :=
  "Unknown provider '" ++ p ++ "'. Choose from: " ++
    String.intercalate ", " AVAILABLE_PROVIDERS

/-- `parse_receipt` (receipt_parser.py lines 222-244).  The three provider
adapters are external HTTP calls; they are abstracted as `adapters`, the
raw dict each provider would produce for the fixed uploaded image (an
adapter failure is `Except.error`).  Provider resolution: explicit
argument, else the `VISION_PROVIDER` environment value, else `"claude"`. -/
def parse_receipt (adapters : String → Except String RawDict)
    (provider : Option String) (envProvider : Option String) :
    Except String ReceiptData :=
  let p := provider.getD (envProvider.getD "claude")
  if p ∈ AVAILABLE_PROVIDERS then
    (adapters p).bind validate_receipt_data
  else
    .error (unknownProviderMsg p)

/-- A substring occurrence: `sub` occurs contiguously inside `s`. -/
def containsStr (s sub : String) : Prop :=
  ∃ l r, s.data = l ++ sub.data ++ r

/-! ## Helper lemmas -/

/-- Shape of every successful validator run: the float coercion succeeded
and every field of the record is the corresponding per-field computation. -/
theorem validate_ok_elim {data : RawDict} {r : ReceiptData}
    (h : validate_receipt_data data = .ok r) :
    pyFloat ((pyGet data "total_eur").getD (.num 0)) = some r.total_eur ∧
    r.date = (pyGet data "date").getD (.str "") ∧
    r.category = validate_category data ∧
    r.payment_method = validate_payment data ∧
    r.notes = (pyGet data "notes").getD (.str "") ∧
    r.bulstat = validate_bulstat data := by
  unfold validate_receipt_data at h
  rcases hq : pyFloat ((pyGet data "total_eur").getD (.num 0)) with _ | t
  · rw [hq] at h
    exact absurd h (by simp)
  · rw [hq] at h
    injection h with h2
    subst h2
    exact ⟨rfl, rfl, rfl, rfl, rfl, rfl⟩

/-- A successful validator run for a dict whose `total_eur` coerces. -/
theorem validate_ok_intro (data : RawDict) {t : Rat}
    (h : pyFloat ((pyGet data "total_eur").getD (.num 0)) = some t) :
    validate_receipt_data data =
      .ok { date := (pyGet data "date").getD (.str ""),
            total_eur := t,
            category := validate_category data,
            payment_method := validate_payment data,
            notes := (pyGet data "notes").getD (.str ""),
            bulstat := validate_bulstat data } := by
  unfold validate_receipt_data
  rw [h]

/-! ## Claims about the field validator -/

/-- Claim C1, counterexample: the validator is not total.  On the raw
mapping with a non-coercible `total_eur` (the string "abc"), the source
reaches `float("abc")`, which raises an uncaught `ValueError` instead of
producing a record with `total_amount = 0` as the claim states. -/
theorem validator_raises_on_noncoercible_total :
    validate_receipt_data [("total_eur", PyVal.str "abc")] =
      .error "could not convert string to float" := rfl

/-- Claim C1 as amended: the validator returns a record exactly when the
raw `total_eur` is absent or numerically coercible; `total_amount` becomes
0 when the value is absent, and equals the coercion when present and
coercible; a present non-coercible value makes the validator raise
instead of producing a record. -/
theorem validator_total_amended : ∀ data : RawDict,
    (pyGet data "total_eur" = none → (validate_receipt_data data).isOk = true) ∧
    ((pyFloat ((pyGet data "total_eur").getD (.num 0))).isSome = true →
      (validate_receipt_data data).isOk = true) ∧
    (∀ r : ReceiptData, validate_receipt_data data = .ok r →
      (pyGet data "total_eur" = none → r.total_eur = 0) ∧
      (∀ q : Rat, pyFloat ((pyGet data "total_eur").getD (.num 0)) = some q →
        r.total_eur = q)) ∧
    (pyFloat ((pyGet data "total_eur").getD (.num 0)) = none →
      (validate_receipt_data data).isOk = false) := by
  intro data
  refine ⟨?_, ?_, ?_, ?_⟩
  · intro h0
    unfold validate_receipt_data
    rw [h0]
    rfl
  · intro hs
    rcases Option.isSome_iff_exists.mp hs with ⟨t, ht⟩
    unfold validate_receipt_data
    rw [ht]
    rfl
  · intro r hr
    have he := validate_ok_elim hr
    constructor
    · intro h0
      rw [h0] at he
      have h1 : some (0 : Rat) = some r.total_eur := he.1
      exact (Option.some.inj h1).symm
    · intro q hq
      rw [hq] at he
      exact (Option.some.inj he.1).symm
  · intro h0
    unfold validate_receipt_data
    rw [h0]
    rfl

/-- Claim C1 amended, witness: on the empty raw mapping the validator
succeeds and yields `total_eur = 0`; the hypotheses of the amended theorem
are satisfied concretely. -/
theorem validator_total_amended_witness :
    (validate_receipt_data []).isOk = true ∧
    ({ date := PyVal.str "", total_eur := 0, category := "Разни",
       payment_method := PyVal.null, notes := PyVal.str "",
       bulstat := PyVal.null } : ReceiptData).total_eur = 0 :=
  ⟨(validator_total_amended []).1 rfl,
   ((validator_total_amended []).2.2.1 _ rfl).1 rfl⟩

/-- Claim C2, counterexample: a raw `payment_method` that is the empty
string is falsy, so the guard `if payment and payment not in
PAYMENT_METHODS` skips it and the returned record keeps the empty string
as its payment method — it does not become absent (`None`) as the claim
states. -/
theorem payment_empty_string_kept :
    validate_receipt_data [("payment_method", PyVal.str "")] =
      .ok { date := PyVal.str "", total_eur := 0, category := "Разни",
            payment_method := PyVal.str "", notes := PyVal.str "",
            bulstat := PyVal.null } ∧
    PyVal.str "" ≠ PyVal.null :=
  ⟨rfl, by decide⟩

/-- Claim C2 as amended: a present string payment method is kept when it
is an exact member of the allowed set; a non-member non-empty string
becomes absent; the empty string (falsy in the source's guard) passes
through unchanged as the empty string; an absent key yields absent. -/
theorem payment_method_amended : ∀ (data : RawDict) (r : ReceiptData),
    validate_receipt_data data = .ok r →
      (pyGet data "payment_method" = none → r.payment_method = PyVal.null) ∧
      (∀ p : String, pyGet data "payment_method" = some (.str p) →
        r.payment_method =
          (if p ∈ PAYMENT_METHODS then PyVal.str p
           else if p = "" then PyVal.str "" else PyVal.null)) := by
  intro data r hr
  have hp := (validate_ok_elim hr).2.2.2.1
  constructor
  · intro h0
    rw [hp]
    unfold validate_payment
    rw [h0]
    rfl
  · intro p h0
    rw [hp]
    unfold validate_payment
    rw [h0]
    by_cases hmem : p ∈ PAYMENT_METHODS
    · have hc : pvMem (PyVal.str p) PAYMENT_METHODS = true := by
        simpa [pvMem, List.contains] using hmem
      simp [hc, hmem, truthy]
    · have hc : pvMem (PyVal.str p) PAYMENT_METHODS = false := by
        simpa [pvMem, List.contains] using hmem
      by_cases hp0 : p = ""
      · simp [hc, hmem, hp0, truthy]
      · simp [hc, hmem, hp0, truthy]

/-- Claim C2 amended, witness: a member string ("Cash") is kept. -/
theorem payment_method_amended_witness :
    ({ date := PyVal.str "", total_eur := 0, category := "Разни",
       payment_method := PyVal.str "Cash", notes := PyVal.str "",
       bulstat := PyVal.null } : ReceiptData).payment_method =
      (if "Cash" ∈ PAYMENT_METHODS then PyVal.str "Cash"
       else if "Cash" = "" then PyVal.str "" else PyVal.null) :=
  ((payment_method_amended [("payment_method", PyVal.str "Cash")] _ rfl).2
    "Cash" rfl)

/-- Claim C4 (evidence of the code bug): the source validator ignores the
`card_last4` key entirely — validating a dict carrying `card_last4 =
"**0889"` gives exactly the same record as validating the empty dict, and
the `ReceiptData` dataclass of config.py has no `card_last4` field at all,
while the repository's own tests assert `receipt.card_last4 == "0889"`. -/
theorem card_last4_ignored_by_validator :
    validate_receipt_data [("card_last4", PyVal.str "**0889")] =
      validate_receipt_data [] ∧
    validate_receipt_data [] =
      .ok { date := PyVal.str "", total_eur := 0, category := "Разни",
            payment_method := PyVal.null, notes := PyVal.str "",
            bulstat := PyVal.null } :=
  ⟨rfl, rfl⟩

/-- Claim C5: a raw category string that is a member of the allowed set is
returned unchanged; a non-member string, and an absent category, are
replaced with the configured default category "Разни". -/
theorem category_exact_match_or_default : ∀ (data : RawDict) (r : ReceiptData),
    validate_receipt_data data = .ok r →
      (∀ s : String, pyGet data "category" = some (.str s) →
        (s ∈ CATEGORIES → r.category = s) ∧
        (s ∉ CATEGORIES → r.category = "Разни")) ∧
      (pyGet data "category" = none → r.category = "Разни") := by
  intro data r hr
  have hc := (validate_ok_elim hr).2.2.1
  constructor
  · intro s h0
    rw [hc]
    unfold validate_category
    rw [h0]
    constructor
    · intro hmem
      simp [hmem]
    · intro hmem
      simp [hmem]
  · intro h0
    rw [hc]
    unfold validate_category
    rw [h0]
    rfl

/-- Claim C5, witness: the member category "Храна" is kept verbatim. -/
theorem category_exact_match_or_default_witness :
    ({ date := PyVal.str "", total_eur := 0, category := "Храна",
       payment_method := PyVal.null, notes := PyVal.str "",
       bulstat := PyVal.null } : ReceiptData).category = "Храна" :=
  ((category_exact_match_or_default [("category", PyVal.str "Храна")] _
      rfl).1 "Храна" rfl).1 (by decide)

/-- Claim C10: every record the validator returns carries a category that
is a member of the fixed allowed-category list, and the fallback default
"Разни" is itself a member of that list. -/
theorem validated_category_in_allowed_list : ∀ (data : RawDict) (r : ReceiptData),
    validate_receipt_data data = .ok r →
      r.category ∈ CATEGORIES ∧ "Разни" ∈ CATEGORIES := by
  intro data r hr
  refine ⟨?_, by decide⟩
  rw [(validate_ok_elim hr).2.2.1]
  unfold validate_category
  rcases (pyGet data "category").getD (.str "Разни") with _ | b | q | s
  · exact (show "Разни" ∈ CATEGORIES by decide)
  · exact (show "Разни" ∈ CATEGORIES by decide)
  · exact (show "Разни" ∈ CATEGORIES by decide)
  · show (if s ∈ CATEGORIES then s else "Разни") ∈ CATEGORIES
    by_cases hmem : s ∈ CATEGORIES
    · rw [if_pos hmem]
      exact hmem
    · rw [if_neg hmem]
      decide

/-- Claim C10, witness: validating the empty dict gives category "Разни",
a member of the allowed list. -/
theorem validated_category_in_allowed_list_witness :
    ({ date := PyVal.str "", total_eur := 0, category := "Разни",
       payment_method := PyVal.null, notes := PyVal.str "",
       bulstat := PyVal.null } : ReceiptData).category ∈ CATEGORIES ∧
    "Разни" ∈ CATEGORIES :=
  validated_category_in_allowed_list [] _ rfl

/-- Claim C8: the secondary-currency amount is the primary amount times
the fixed constant `BGN_PER_EUR = 1.95583`, rounded to 2 decimal places;
for a record with `total_eur = 1.00` this yields `1.96` (= 49/25). -/
theorem bgn_equivalent_computation :
    BGN_PER_EUR = 195583 / 100000 ∧
    (∀ r : ReceiptData, total_bgn r = pyRound2 (r.total_eur * BGN_PER_EUR)) ∧
    total_bgn { date := PyVal.str "01.01.2026", total_eur := 1,
                category := "Разни", payment_method := PyVal.null,
                notes := PyVal.str "", bulstat := PyVal.null } = 196 / 100 := by
  refine ⟨rfl, fun r => rfl, ?_⟩
  have hfl : ⌊(195583 / 1000 : Rat)⌋ = 195 := by
    rw [Int.floor_eq_iff]
    norm_num
  unfold total_bgn pyRound2 pyRoundInt BGN_PER_EUR
  norm_num [hfl]

/-! ## Lemmas about the lazy fenced-block matcher -/

/-- Inside a backtick-free segment the capture can never close: after any
whitespace munch the next character is a non-backtick character of `v` or
the closing brace, never the backtick that the closing fence needs. -/
theorem closeFence_mid : ∀ v : List Char, v.all (· != '\x60') = true →
    ∀ w : List Char, closeFence (v ++ '\x7d' :: w) = false := by
  intro v
  induction v with
  | nil =>
    intro _ w
    show closeFence ('\x7d' :: w) = false
    unfold closeFence
    rw [List.dropWhile_cons]
    simp [pySpace, List.isPrefixOf]
  | cons c v ih =>
    intro hv w
    rw [List.all_cons, Bool.and_eq_true] at hv
    obtain ⟨hc, hv2⟩ := hv
    show closeFence (c :: (v ++ '\x7d' :: w)) = false
    unfold closeFence
    rw [List.dropWhile_cons]
    by_cases hs : pySpace c = true
    · rw [if_pos hs]
      have := ih hv2 w
      unfold closeFence at this
      exact this
    · rw [if_neg hs]
      have hne : ('\x60' == c) = false := by
        simp only [bne_iff_ne, ne_eq] at hc
        simp [BEq.beq]
        exact fun h => hc h.symm
      simp [List.isPrefixOf, hne]

/-- The lazy capture `(\{.*?\})\s*` anchored to the closing fence consumes
a backtick-free body in full: it can only close at the body's final brace,
the first position at which the closing fence follows. -/
theorem lazyScan_completes : ∀ v : List Char, v.all (· != '\x60') = true →
    ∀ w acc : List Char, closeFence w = true →
    lazyScan (v ++ '\x7d' :: w) acc =
      some (('\x7d' :: (v.reverse ++ acc)).reverse) := by
  intro v
  induction v with
  | nil =>
    intro _ w acc hw
    show lazyScan ('\x7d' :: w) acc = _
    unfold lazyScan
    rw [if_pos]
    · simp
    · simp [hw]
  | cons c v ih =>
    intro hv w acc hw
    rw [List.all_cons, Bool.and_eq_true] at hv
    obtain ⟨hc, hv2⟩ := hv
    show lazyScan (c :: (v ++ '\x7d' :: w)) acc = _
    unfold lazyScan
    rw [if_neg]
    · rw [ih hv2 w (c :: acc) hw]
      simp
    · rw [closeFence_mid v hv2 w]
      simp

/-- Pattern 1 anchored at a `json`-tagged fence whose brace-delimited body
has no backticks captures the entire body. -/
theorem fenceAt_tagged (v w : List Char) (hv : v.all (· != '\x60') = true)
    (hw : closeFence w = true) :
    fenceAt ('\x60' :: '\x60' :: '\x60' :: 'j' :: 's' :: 'o' :: 'n' :: '\n' ::
        '\x7b' :: (v ++ '\x7d' :: w)) = some ('\x7b' :: (v ++ ['\x7d'])) := by
  have hfa : fenceAt ('\x60' :: '\x60' :: '\x60' :: 'j' :: 's' :: 'o' :: 'n' ::
      '\n' :: '\x7b' :: (v ++ '\x7d' :: w)) =
      (match lazyScan (v ++ '\x7d' :: w) ['\x7b'] with
       | some g => some g
       | none => fenceBody ('j' :: 's' :: 'o' :: 'n' :: '\n' :: '\x7b' ::
           (v ++ '\x7d' :: w))) := rfl
  rw [hfa, lazyScan_completes v hv w ['\x7b'] hw]
  simp

/-- Pattern 1 anchored at an untagged fence whose brace-delimited body has
no backticks captures the entire body. -/
theorem fenceAt_untagged (v w : List Char) (hv : v.all (· != '\x60') = true)
    (hw : closeFence w = true) :
    fenceAt ('\x60' :: '\x60' :: '\x60' :: '\n' :: '\x7b' ::
        (v ++ '\x7d' :: w)) = some ('\x7b' :: (v ++ ['\x7d'])) := by
  have hfa : fenceAt ('\x60' :: '\x60' :: '\x60' :: '\n' :: '\x7b' ::
      (v ++ '\x7d' :: w)) = lazyScan (v ++ '\x7d' :: w) ['\x7b'] := rfl
  rw [hfa, lazyScan_completes v hv w ['\x7b'] hw]
  simp

/-! ## Claims about JSON extraction -/

/-- Claim C3, counterexample: the source's fence pattern takes the brace
span lazily (`.*?`), not greedily.  On a text with two fenced objects the
code extracts the first object alone, while the greedy span the claim
describes runs from the first fence's opening brace across the fence
boundary to the second fence's closing brace — a different (and not
JSON-parseable) span. -/
theorem fenced_span_lazy_not_greedy :
    extract_json_span "```\n\x7b\x7d\n```\nx\n```\n\x7b\x7d\n```" =
      .ok "\x7b\x7d" ∧
    searchFenceGreedy ("```\n\x7b\x7d\n```\nx\n```\n\x7b\x7d\n```" : String).data =
      some ("\x7b\x7d\n```\nx\n```\n\x7b\x7d" : String).data ∧
    ("\x7b\x7d" : String) ≠ "\x7b\x7d\n```\nx\n```\n\x7b\x7d" :=
  ⟨rfl, rfl, by decide⟩

/-- Claim C3 as amended: extraction tries the fenced block first and takes
the brace span lazily — the shortest span whose closing brace is followed,
up to whitespace, by the closing fence.  Anchoring to the closing fence
means a backtick-free fenced object, nested braces and all, is still
extracted in full: for every body `{mid}` with no backtick in `mid`, both
the `json`-tagged and the untagged fence yield exactly `{mid}` as the span
handed to the JSON parser. -/
theorem fenced_extraction_amended : ∀ mid : String,
    mid.data.all (· != '\x60') = true →
    extract_json_span ("```json\n\x7b" ++ mid ++ "\x7d\n```") =
      .ok ("\x7b" ++ mid ++ "\x7d") ∧
    extract_json_span ("```\n\x7b" ++ mid ++ "\x7d\n```") =
      .ok ("\x7b" ++ mid ++ "\x7d") := by
  intro mid hv
  have hw : closeFence ('\n' :: '\x60' :: '\x60' :: '\x60' :: []) = true := rfl
  constructor
  · have hft := fenceAt_tagged mid.data ('\n' :: '\x60' :: '\x60' :: '\x60' :: [])
      hv hw
    unfold extract_json_span
    have hd : ("```json\n\x7b" ++ mid ++ "\x7d\n```").data =
        '\x60' :: '\x60' :: '\x60' :: 'j' :: 's' :: 'o' :: 'n' :: '\n' ::
          '\x7b' :: (mid.data ++ '\x7d' :: '\n' :: '\x60' :: '\x60' :: '\x60' :: []) :=
      rfl
    rw [hd]
    have hsf : searchFence ('\x60' :: '\x60' :: '\x60' :: 'j' :: 's' :: 'o' ::
        'n' :: '\n' :: '\x7b' ::
        (mid.data ++ '\x7d' :: '\n' :: '\x60' :: '\x60' :: '\x60' :: [])) =
        some ('\x7b' :: (mid.data ++ ['\x7d'])) := by
      have heq : searchFence ('\x60' :: '\x60' :: '\x60' :: 'j' :: 's' :: 'o' ::
          'n' :: '\n' :: '\x7b' ::
          (mid.data ++ '\x7d' :: '\n' :: '\x60' :: '\x60' :: '\x60' :: [])) =
          (match fenceAt ('\x60' :: '\x60' :: '\x60' :: 'j' :: 's' :: 'o' ::
             'n' :: '\n' :: '\x7b' ::
             (mid.data ++ '\x7d' :: '\n' :: '\x60' :: '\x60' :: '\x60' :: [])) with
           | some g => some g
           | none => searchFence ('\x60' :: '\x60' :: 'j' :: 's' :: 'o' :: 'n' ::
               '\n' :: '\x7b' ::
               (mid.data ++ '\x7d' :: '\n' :: '\x60' :: '\x60' :: '\x60' :: []))) :=
        rfl
      rw [heq, hft]
    rw [hsf]
    rfl
  · have hft := fenceAt_untagged mid.data ('\n' :: '\x60' :: '\x60' :: '\x60' :: [])
      hv hw
    unfold extract_json_span
    have hd : ("```\n\x7b" ++ mid ++ "\x7d\n```").data =
        '\x60' :: '\x60' :: '\x60' :: '\n' ::
          '\x7b' :: (mid.data ++ '\x7d' :: '\n' :: '\x60' :: '\x60' :: '\x60' :: []) :=
      rfl
    rw [hd]
    have hsf : searchFence ('\x60' :: '\x60' :: '\x60' :: '\n' :: '\x7b' ::
        (mid.data ++ '\x7d' :: '\n' :: '\x60' :: '\x60' :: '\x60' :: [])) =
        some ('\x7b' :: (mid.data ++ ['\x7d'])) := by
      have heq : searchFence ('\x60' :: '\x60' :: '\x60' :: '\n' :: '\x7b' ::
          (mid.data ++ '\x7d' :: '\n' :: '\x60' :: '\x60' :: '\x60' :: [])) =
          (match fenceAt ('\x60' :: '\x60' :: '\x60' :: '\n' :: '\x7b' ::
             (mid.data ++ '\x7d' :: '\n' :: '\x60' :: '\x60' :: '\x60' :: [])) with
           | some g => some g
           | none => searchFence ('\x60' :: '\x60' :: '\n' :: '\x7b' ::
               (mid.data ++ '\x7d' :: '\n' :: '\x60' :: '\x60' :: '\x60' :: []))) :=
        rfl
      rw [heq, hft]
    rw [hsf]
    rfl

/-- Claim C3 amended, witness: a fenced object with nested braces in its
body is extracted in full. -/
theorem fenced_extraction_amended_witness :
    extract_json_span ("```json\n\x7b" ++ "\"a\": \x7b\"b\": 1\x7d" ++ "\x7d\n```") =
      .ok ("\x7b" ++ "\"a\": \x7b\"b\": 1\x7d" ++ "\x7d") :=
  (fenced_extraction_amended "\"a\": \x7b\"b\": 1\x7d" (by decide)).1

/-! ## Claims about the ledger row -/

/-- Claim C9, counterexample: two records that differ only in their
payment method — absent (`None`) versus the empty string — build the very
same ledger row (`self.payment_method or ""` maps both to an empty cell),
so no re-reading of the row's columns can recover the payment method of
every record unchanged. -/
theorem sheet_row_payment_collision :
    to_sheet_row { date := PyVal.str "01.01.2026", total_eur := 10,
                   category := "Храна", payment_method := PyVal.null,
                   notes := PyVal.str "бележка", bulstat := PyVal.null } =
      to_sheet_row { date := PyVal.str "01.01.2026", total_eur := 10,
                     category := "Храна", payment_method := PyVal.str "",
                     notes := PyVal.str "бележка", bulstat := PyVal.null } ∧
    (PyVal.null : PyVal) ≠ PyVal.str "" :=
  ⟨rfl, by decide⟩

/-- Claim C9 as amended: for every record the row's fixed positions 0, 1
and 8 hold the record's date, category and notes unchanged, and position 5
holds the payment method unchanged whenever that payment method is truthy
(in particular a non-empty string); an absent payment method and an
empty-string payment method both serialize to an empty cell and therefore
cannot be told apart when the row is re-read. -/
theorem sheet_row_roundtrip_amended : ∀ r : ReceiptData,
    (to_sheet_row r).getD 0 PyVal.null = r.date ∧
    (to_sheet_row r).getD 1 PyVal.null = PyVal.str r.category ∧
    (to_sheet_row r).getD 8 PyVal.null = r.notes ∧
    (truthy r.payment_method = true →
      (to_sheet_row r).getD 5 PyVal.null = r.payment_method) := by
  intro r
  refine ⟨rfl, rfl, rfl, ?_⟩
  intro ht
  show (if truthy r.payment_method then r.payment_method else PyVal.str "") =
    r.payment_method
  rw [if_pos ht]

/-- Claim C9 amended, witness: a record with the truthy payment method
"Revolut" keeps it at row position 5. -/
theorem sheet_row_roundtrip_amended_witness :
    (to_sheet_row { date := PyVal.str "15.02.2026", total_eur := 2345 / 100,
                    category := "Храна", payment_method := PyVal.str "Revolut",
                    notes := PyVal.str "хляб", bulstat := PyVal.null }).getD 5
        PyVal.null =
      ({ date := PyVal.str "15.02.2026", total_eur := 2345 / 100,
         category := "Храна", payment_method := PyVal.str "Revolut",
         notes := PyVal.str "хляб", bulstat := PyVal.null } : ReceiptData).payment_method :=
  (sheet_row_roundtrip_amended _).2.2.2 rfl

/-! ## Claims about QR decoding -/

/-- Claim C6: decoding the payload text
`FP12345*0001*15.02.2026*14:30*23.45` yields the fiscal id, receipt
number, date, time and amount at their positions; a candidate whose text
splits into fewer than 4 `*`-delimited segments is discarded (the loop
moves on to the remaining candidates); and when no candidate yields a
valid payload the result is absent. -/
theorem qr_decoding_claim :
    decode_receipt_qr
        [{ ctype := "QRCODE", text := some "FP12345*0001*15.02.2026*14:30*23.45" }] =
      some { fp_number := "FP12345", receipt_number := "0001",
             date := "15.02.2026", time := some "14:30",
             amount := some (2345 / 100) } ∧
    (∀ (c : QrCode) (cs : List QrCode) (t : String), c.text = some t →
      (pySplit t '*').length < 4 →
      decode_receipt_qr (c :: cs) = decode_receipt_qr cs) ∧
    (∀ codes : List QrCode, (∀ c ∈ codes, qrCandidate c = none) →
      decode_receipt_qr codes = none) := by
  refine ⟨?_, ?_, ?_⟩
  · have hpf : parseFloat "23.45" = some (2345 / 100 : Rat) := by
      have h1 : parseFloat "23.45" =
          some ((natOfDigits ['2', '3'] : Rat) +
            (natOfDigits ['4', '5'] : Rat) / (10 : Rat) ^ 2) := rfl
      have h2 : natOfDigits ['2', '3'] = 23 := by decide
      have h3 : natOfDigits ['4', '5'] = 45 := by decide
      rw [h1, h2, h3]
      norm_num
    have hsplit : pySplit "FP12345*0001*15.02.2026*14:30*23.45" '*' =
        ["FP12345", "0001", "15.02.2026", "14:30", "23.45"] := by decide
    have hc : qrCandidate
        { ctype := "QRCODE", text := some "FP12345*0001*15.02.2026*14:30*23.45" } =
        some { fp_number := "FP12345", receipt_number := "0001",
               date := "15.02.2026", time := some "14:30",
               amount := some (2345 / 100) } := by
      unfold qrCandidate
      simp [hsplit, hpf]
    unfold decode_receipt_qr
    rw [List.findSome?_cons, hc]
  · intro c cs t ht hlen
    have hc : qrCandidate c = none := by
      unfold qrCandidate
      by_cases hty : c.ctype ≠ "QRCODE"
      · rw [if_pos hty]
      · rw [if_neg hty, ht]
        simp only [if_pos hlen]
    unfold decode_receipt_qr
    rw [List.findSome?_cons, hc]
  · intro codes hall
    unfold decode_receipt_qr
    induction codes with
    | nil => rfl
    | cons c cs ih =>
      rw [List.findSome?_cons, hall c (by simp)]
      exact ih (fun x hx => hall x (by simp [hx]))

/-- Claim C6, witness: a three-segment payload is discarded and an
all-invalid candidate list decodes to `none`. -/
theorem qr_decoding_claim_witness :
    decode_receipt_qr
        [{ ctype := "QRCODE", text := some "A*B*C" },
         { ctype := "QRCODE", text := some "FP1*2*3*4" }] =
      decode_receipt_qr [{ ctype := "QRCODE", text := some "FP1*2*3*4" }] ∧
    decode_receipt_qr [{ ctype := "EAN13", text := some "123" }] = none := by
  constructor
  · exact qr_decoding_claim.2.1 _ _ "A*B*C" rfl (by decide)
  · exact qr_decoding_claim.2.2 _ (by decide)

/-! ## Claims about the orchestrator -/

/-- Claim C7: for a provider name outside the adapter mapping the
orchestrator fails with the unknown-provider error — for every possible
behaviour of the adapters, so no adapter is invoked — and the error
message names each of the valid provider choices. -/
theorem unknown_provider_fails : ∀ p : String, p ∉ AVAILABLE_PROVIDERS →
    (∀ (adapters : String → Except String RawDict) (env : Option String),
      parse_receipt adapters (some p) env = .error (unknownProviderMsg p)) ∧
    (∀ v ∈ AVAILABLE_PROVIDERS, containsStr (unknownProviderMsg p) v) := by
  intro p hp
  constructor
  · intro adapters env
    unfold parse_receipt
    simp only [Option.getD_some]
    rw [if_neg hp]
  · intro v hv
    have hJ : String.intercalate ", " AVAILABLE_PROVIDERS =
        "claude, gemini, grok" := rfl
    have hmsg : (unknownProviderMsg p).data =
        "Unknown provider '".data ++ p.data ++
          ("'. Choose from: claude, gemini, grok").data := by
      unfold unknownProviderMsg
      rw [hJ]
      simp
    have hv2 : v = "claude" ∨ v = "gemini" ∨ v = "grok" := by
      simpa [AVAILABLE_PROVIDERS] using hv
    rcases hv2 with rfl | rfl | rfl
    · exact ⟨"Unknown provider '".data ++ p.data ++ "'. Choose from: ".data,
        ", gemini, grok".data, by rw [hmsg]; simp⟩
    · exact ⟨"Unknown provider '".data ++ p.data ++ "'. Choose from: claude, ".data,
        ", grok".data, by rw [hmsg]; simp⟩
    · exact ⟨"Unknown provider '".data ++ p.data ++ "'. Choose from: claude, gemini, ".data,
        [], by rw [hmsg]; simp⟩

/-- Claim C7, witness: the name "unknown" is rejected with the message
naming claude, gemini and grok, whatever the adapters would have done. -/
theorem unknown_provider_fails_witness :
    parse_receipt (fun _ => Except.error "adapter reached") (some "unknown") none =
      .error (unknownProviderMsg "unknown") ∧
    containsStr (unknownProviderMsg "unknown") "claude" :=
  ⟨(unknown_provider_fails "unknown" (by decide)).1 _ none,
   (unknown_provider_fails "unknown" (by decide)).2 "claude" (by decide)⟩

end ReceiptProc
